/-
Verification of the DWHR savings estimator (DWHR_SavingsEstimates.py).

The per-draw numeric pipeline of the script is embedded shallowly over ℚ.
Machine floats are idealized as exact rationals; the Lean convention
x / 0 = 0 is used in the total embedding, and a separate division-tracking
embedding (values in Option ℚ, with none marking the non-finite float
outcome of a zero-denominator division) is used for the claims that are
about division-by-zero and logarithm-domain behaviour.  The transcendental
math.log is represented by an abstract parameter lnF : ℚ → ℚ; every theorem
that involves it is proved for all lnF.
-/
import Mathlib

namespace DWHR

/-- Source constant SpecificHeat_Water = 0.998 Btu/(lb_m-F) (line 66). -/
def SpecificHeat_Water : ℚ := 0.998

/-- Source constant Density_Water = 8.3176 lb-m/gal (line 67). -/
def Density_Water : ℚ := 8.3176

/-- Source constant Temperature_Shower = 105 deg F (line 71). -/
def Temperature_Shower : ℚ := 105

/-- Source constant Temperature_WaterHeater = 115 deg F (line 72). -/
def Temperature_WaterHeater : ℚ := 115

/-- Source constant Temperature_Drain_Inlet = 100.4 deg F (line 75). -/
def Temperature_Drain_Inlet : ℚ := 100.4

/-- Source constant Effectiveness_Rated = 0.42 (line 62). -/
def Effectiveness_Rated : ℚ := 0.42

/-- Source per-draw constant column FlowRate Effectiveness Minimum = 0.5
gal/min (line 137). -/
def FlowRate_Effectiveness_Minimum : ℚ := 0.5

/-- Source per-draw constant column FlowRate Effectiveness Maximum = 7.5
gal/min (line 138). -/
def FlowRate_Effectiveness_Maximum : ℚ := 7.5

/-- The three installation configurations the script distinguishes by the
string argument Configuration of Calculate_Fraction_Cold_ThroughDWHR
(lines 90, 94, 97, 99). -/
inductive Configuration where
  | Equal
  | Unequal_WaterHeater
  | Unequal_Fixture
deriving DecidableEq

/-- Embedding of Calculate_Fraction_Cold_ThroughDWHR (source lines 89-101).
Flow_Drain = Flow_Shower in every branch; in the two unequal branches
Flow_Cold = Flow_Shower * (Temperature_Shower - Temperature_WaterHeater) /
(Temperature_Mains - Temperature_WaterHeater).  The Equal branch returns 1,
Unequal_Fixture returns Flow_Cold / Flow_Drain, Unequal_WaterHeater returns
1 - Flow_Cold / Flow_Drain.  Total idealization: Lean division by zero
yields 0 here; the division-tracking variant below records the zero
denominators instead. -/
def Calculate_Fraction_Cold_ThroughDWHR (Flow_Shower Temperature_Mains
    Temperature_Shower Temperature_WaterHeater : ℚ)
    (c : Configuration) : ℚ :=
  match c with
  | Configuration.Equal => 1
  | Configuration.Unequal_Fixture =>
      Flow_Shower * (Temperature_Shower - Temperature_WaterHeater) /
        (Temperature_Mains - Temperature_WaterHeater) / Flow_Shower
  | Configuration.Unequal_WaterHeater =>
      1 - Flow_Shower * (Temperature_Shower - Temperature_WaterHeater) /
        (Temperature_Mains - Temperature_WaterHeater) / Flow_Shower

/-- Division as the pandas float pipeline performs it, with definedness
tracked: a zero denominator makes a float expression non-finite (inf or
NaN, silently, with only a runtime warning); none marks that non-finite
outcome.  Used by the claims about division-by-zero behaviour. -/
def pdiv (a b : ℚ) : Option ℚ :=
  if b = 0 then none else some (a / b)

/-- Division-tracking variant of Calculate_Fraction_Cold_ThroughDWHR
(source lines 89-101): the same two divisions as the source, each through
pdiv, so that a zero denominator (Temperature_Mains =
Temperature_WaterHeater, or Flow_Shower = 0 in the final fraction)
surfaces as none, the silently produced non-finite float.  The source
itself contains no guard: both branches execute the divisions
unconditionally. -/
def Calculate_Fraction_Cold_ThroughDWHR_chk (Flow_Shower Temperature_Mains
    Temperature_Shower Temperature_WaterHeater : ℚ)
    (c : Configuration) : Option ℚ :=
  match c with
  | Configuration.Equal => some 1
  | Configuration.Unequal_Fixture =>
      (pdiv (Flow_Shower * (Temperature_Shower - Temperature_WaterHeater))
        (Temperature_Mains - Temperature_WaterHeater)).bind
        (fun fc => pdiv fc Flow_Shower)
  | Configuration.Unequal_WaterHeater =>
      (pdiv (Flow_Shower * (Temperature_Shower - Temperature_WaterHeater))
        (Temperature_Mains - Temperature_WaterHeater)).bind
        (fun fc => (pdiv fc Flow_Shower).map (fun q => 1 - q))

/-- The row-major (i, j) index enumeration itertools.product(range (order+1),
range (order+1)) of polyval2d (source line 106). -/
def polyPairs (order : Nat) : List (Nat × Nat) :=
  (List.range (order + 1)).flatMap
    (fun i => (List.range (order + 1)).map (fun j => (i, j)))

/-- Embedding of polyval2d (source lines 104-110): order =
int(np.sqrt(len m)) - 1 (floor square root, truncating subtraction), then
z = sum over zip m (polyPairs order) of a * x^i * y^j.  Python zip stops at
the shorter sequence, exactly as List.zip does: when the length of m is not
a perfect square the trailing coefficients are silently ignored and a value
is still returned - the function performs no validation. -/
def polyval2d (x y : ℚ) (m : List ℚ) : ℚ :=
  let order := Nat.sqrt m.length - 1
  (m.zip (polyPairs order)).foldl
    (fun z ap => z + ap.1 * x ^ ap.2.1 * y ^ ap.2.2) 0

/-- The surface evaluation as the specification words it (spec 4.1): the
order p = sqrt N - 1 must be an exact non-negative integer and the
evaluation fails with a MalformedCoefficients (ConfigurationError) when N
is not a perfect square; none models that error. -/
def evaluate_surface_spec (m : List ℚ) (x y : ℚ) : Option ℚ :=
  if Nat.sqrt m.length * Nat.sqrt m.length = m.length then
    some (polyval2d x y m)
  else
    none

/-- One row of a draw profile: the four input columns the calculations
read - Flow Rate (gpm), Duration (min), Mains Temperature (deg F), and Hot
Water Flow Rate (gpm). -/
structure Draw where
  flowRate : ℚ
  duration : ℚ
  mainsTemp : ℚ
  hotFlowRate : ℚ

/-- Column Mixed Water Volume (gal) = flow rate * duration (line 136). -/
def Mixed_Water_Volume (d : Draw) : ℚ := d.flowRate * d.duration

/-- Column FlowRate Effectiveness Equal (gal/min) (lines 143-144): the draw
flow rate clamped into [0.5, 7.5] by the two np.where steps. -/
def FlowRate_Effectiveness_Equal (d : Draw) : ℚ :=
  let v := if d.flowRate ≥ FlowRate_Effectiveness_Minimum then d.flowRate
           else FlowRate_Effectiveness_Minimum
  if v ≤ FlowRate_Effectiveness_Maximum then v
  else FlowRate_Effectiveness_Maximum

/-- Column Effectiveness Equal (-) (line 146). -/
def Effectiveness_Equal (coeffs : List ℚ) (d : Draw) : ℚ :=
  polyval2d (FlowRate_Effectiveness_Equal d) (FlowRate_Effectiveness_Equal d)
    coeffs * Effectiveness_Rated

/-- Column Savings Equal (Btu) (line 147). -/
def Savings_Equal_Btu (coeffs : List ℚ) (d : Draw) : ℚ :=
  Effectiveness_Equal coeffs d * Mixed_Water_Volume d * Density_Water *
    SpecificHeat_Water * (Temperature_Drain_Inlet - d.mainsTemp)

/-- The Unequal-WaterHeater cold fraction of a draw, as the script calls
Calculate_Fraction_Cold_ThroughDWHR on lines 161-162. -/
def Fraction_Cold_UnequalWH (d : Draw) : ℚ :=
  Calculate_Fraction_Cold_ThroughDWHR d.flowRate d.mainsTemp
    Temperature_Shower Temperature_WaterHeater
    Configuration.Unequal_WaterHeater

/-- Column Potable Flow Rate Unequal-WaterHeater (gal/min) (line 161). -/
def Potable_FlowRate_UnequalWH (d : Draw) : ℚ :=
  d.flowRate * Fraction_Cold_UnequalWH d

/-- Column Potable Flow Unequal-WaterHeater (gal) (line 162). -/
def Potable_Flow_UnequalWH (d : Draw) : ℚ :=
  Mixed_Water_Volume d * Fraction_Cold_UnequalWH d

/-- Column FlowRate Cold Effectiveness Unequal-WaterHeater (gal/min)
(lines 164-165).  Transcribed exactly as written: the first np.where tests
the condition Flow Rate (gpm) >= minimum - the draw flow rate, not the
potable (cold-side) flow rate whose value it selects - and the second
np.where tests the selected value against the maximum. -/
def FlowRate_Cold_Effectiveness_UnequalWH (d : Draw) : ℚ :=
  let v := if d.flowRate ≥ FlowRate_Effectiveness_Minimum then
             Potable_FlowRate_UnequalWH d
           else FlowRate_Effectiveness_Minimum
  if v ≤ FlowRate_Effectiveness_Maximum then v
  else FlowRate_Effectiveness_Maximum

/-- Column Effectiveness Unequal-WaterHeater (-) (line 167): the 2-D map
evaluated at (clamped draw flow, clamped cold flow), scaled by the rated
effectiveness. -/
def Effectiveness_UnequalWH (coeffs : List ℚ) (d : Draw) : ℚ :=
  polyval2d (FlowRate_Effectiveness_Equal d)
    (FlowRate_Cold_Effectiveness_UnequalWH d) coeffs * Effectiveness_Rated

/-- Column Savings Unequal-WaterHeater (Btu) (line 168). -/
def Savings_UnequalWH_Btu (coeffs : List ℚ) (d : Draw) : ℚ :=
  Effectiveness_UnequalWH coeffs d * Potable_Flow_UnequalWH d *
    Density_Water * SpecificHeat_Water *
    (Temperature_Drain_Inlet - d.mainsTemp)

/-- The per-draw columns written by the Unequal-Fixture iterative solver
(source lines 183-218).  The loop-carried datum is coldFlow (Flow Cold
ThroughDWHR, Unequal-Fixture (gal/min)); the remaining fields are the
columns recomputed each pass.  Before the first pass the script creates
only outletTemp, flowDelta and coldFlow (lines 183-185); the other columns
do not exist yet and are zero-initialized placeholders here, first written
in pass one. -/
structure FixtureState where
  outletTemp : ℚ
  flowDelta : ℚ
  coldFlow : ℚ
  clampedCold : ℚ
  clampedDraw : ℚ
  flowRateMin : ℚ
  effectivenessFC : ℚ
  heatRecoveredEqualFC : ℚ
  heatRateEqualFC : ℚ
  flowRatioUF : ℚ
  heatRateUnequal : ℚ
  heatRecovered : ℚ
  coldFlowPost : ℚ

/-- Initialization of the Unequal-Fixture solver (source lines 183-185):
outlet temperature := mains temperature, flow delta := the sentinel 9999,
cold flow := flow rate - hot water flow rate. -/
def initFixture (d : Draw) : FixtureState :=
  { outletTemp := d.mainsTemp
    flowDelta := 9999
    coldFlow := d.flowRate - d.hotFlowRate
    clampedCold := 0
    clampedDraw := 0
    flowRateMin := 0
    effectivenessFC := 0
    heatRecoveredEqualFC := 0
    heatRateEqualFC := 0
    flowRatioUF := 0
    heatRateUnequal := 0
    heatRecovered := 0
    coldFlowPost := 0 }

/-- One pass of the Unequal-Fixture while loop body (source lines 192-218),
for one draw, with lnF standing for math.log.  In source order:
clamp the cold-flow estimate into [0.5, 7.5] (192-193); clamp the draw flow
likewise (195-196); FlowRate Minimum := Flow Rate .combine(coldFlow, min, 0)
(198) - with both columns living on the same index the fill_value 0 is
never consulted, so this is the plain elementwise min, with no lower bound
at zero; effectiveness := polyval2d(clampedCold, clampedCold, coeffs) *
rated (200); the equal-flow heat and rate (202, 204); flow ratio :=
flowRate / coldFlow on the raw, unclamped estimate (206); the Manouchehri
correction (208); heat recovered (210); the new outlet temperature (212);
the recomputed cold flow from the energy balance at the new outlet
temperature (214); the flow delta (216); and the cold-flow update (218). -/
def fixtureStep (lnF : ℚ → ℚ) (coeffs : List ℚ) (d : Draw)
    (s : FixtureState) : FixtureState :=
  let cc0 := if s.coldFlow ≥ FlowRate_Effectiveness_Minimum then s.coldFlow
             else FlowRate_Effectiveness_Minimum
  let cc := if cc0 ≤ FlowRate_Effectiveness_Maximum then cc0
            else FlowRate_Effectiveness_Maximum
  let dc0 := if d.flowRate ≥ FlowRate_Effectiveness_Minimum then d.flowRate
             else FlowRate_Effectiveness_Minimum
  let dc := if dc0 ≤ FlowRate_Effectiveness_Maximum then dc0
            else FlowRate_Effectiveness_Maximum
  let frm := min d.flowRate s.coldFlow
  let eff := polyval2d cc cc coeffs * Effectiveness_Rated
  let hrecEq := eff * frm * Density_Water * SpecificHeat_Water *
    (Temperature_Drain_Inlet - d.mainsTemp) * d.duration
  let hrateEq := eff * frm * Density_Water * SpecificHeat_Water *
    (Temperature_Drain_Inlet - d.mainsTemp)
  let fr := d.flowRate / s.coldFlow
  let hrateUn := hrateEq * (0.3452 * lnF fr + 1)
  let hrec := hrateUn * d.duration
  let ot := hrateUn / (s.coldFlow * SpecificHeat_Water * Density_Water) +
    d.mainsTemp
  let cfPost := Calculate_Fraction_Cold_ThroughDWHR d.flowRate ot
    Temperature_Shower Temperature_WaterHeater
    Configuration.Unequal_Fixture * d.flowRate
  let fd := |s.coldFlow - cfPost|
  { outletTemp := ot
    flowDelta := fd
    coldFlow := cfPost
    clampedCold := cc
    clampedDraw := dc
    flowRateMin := frm
    effectivenessFC := eff
    heatRecoveredEqualFC := hrecEq
    heatRateEqualFC := hrateEq
    flowRatioUF := fr
    heatRateUnequal := hrateUn
    heatRecovered := hrec
    coldFlowPost := cfPost }

/-- Division-tracking transcription of the ratio / logarithm / correction
chain of source lines 206-208: flow ratio := flowRate / coldFlow through
pdiv (a zero cold-flow estimate makes the ratio non-finite), then the
logarithm (lnChk stands for math.log, none-propagating: the log of a
non-finite value is non-finite), then heatRateEqual * (0.3452 * log + 1).
Nothing clamps coldFlow before the ratio and nothing raises: a none simply
propagates into the heat-recovery column. -/
def heatRateUnequal_chk (lnChk : ℚ → Option ℚ) (heatRateEqual flowRate
    coldFlow : ℚ) : Option ℚ :=
  (pdiv flowRate coldFlow).bind
    (fun r => (lnChk r).map (fun l => heatRateEqual * (0.3452 * l + 1)))

/-- The per-series aggregate of the script: the three savings sums, in
therms (Btu / 100000) - Savings_Equal (line 151), Savings_Unequal_
WaterHeater (line 172), Savings_Unequal_Fixture (line 222). -/
structure ProfileSavings where
  savings_equal : ℚ
  savings_unequal_waterheater : ℚ
  savings_unequal_fixture : ℚ
deriving DecidableEq

/-- The vectorized while loop of source lines 190-220, over the whole
series at once: while some draw still has flowDelta >= 0.01, apply
fixtureStep to every draw.  The source loop is unbounded; the fuel
argument is the embedding's totality device, and every theorem below
holds for every fuel. -/
def solveFixture (lnF : ℚ → ℚ) (coeffs : List ℚ) :
    Nat → List (Draw × FixtureState) → List (Draw × FixtureState)
  | 0, l => l
  | fuel + 1, l =>
      if l.any (fun p => decide (p.2.flowDelta ≥ 0.01)) then
        solveFixture lnF coeffs fuel
          (l.map (fun p => (p.1, fixtureStep lnF coeffs p.1 p.2)))
      else l

/-- One full pass of the per-profile calculations (source lines 136-222):
the three per-draw pipelines, each summed over the series and divided by
100000 to convert Btu to therms. -/
def processSeries (lnF : ℚ → ℚ) (coeffs : List ℚ) (fuel : Nat)
    (draws : List Draw) : ProfileSavings :=
  let finalStates := solveFixture lnF coeffs fuel
    (draws.map (fun d => (d, initFixture d)))
  { savings_equal := (draws.map (Savings_Equal_Btu coeffs)).sum / 100000
    savings_unequal_waterheater :=
      (draws.map (Savings_UnequalWH_Btu coeffs)).sum / 100000
    savings_unequal_fixture :=
      (finalStates.map (fun p => p.2.heatRecovered)).sum / 100000 }

/-- The outer per-file loop of source lines 132-240, with the accumulated
results table threaded explicitly: each profile is processed and its
ProfileSavings appended to the running results list, exactly as the script
appends the Temp row to Results. -/
def processProfilesLoop (lnF : ℚ → ℚ) (coeffs : List ℚ) (fuel : Nat) :
    List (List Draw) → List ProfileSavings → List ProfileSavings
  | [], results => results
  | p :: rest, results =>
      processProfilesLoop lnF coeffs fuel rest
        (results ++ [processSeries lnF coeffs fuel p])

/-! ## Helper lemmas -/

/-- Zipping against a second list no longer than k ignores everything a
take k would drop from the first list. -/
theorem zip_take_of_length_le {α β : Type} :
    ∀ (l₁ : List α) (l₂ : List β) (k : Nat), l₂.length ≤ k →
      (l₁.take k).zip l₂ = l₁.zip l₂ := by
  intro l₁
  induction l₁ with
  | nil => intro l₂ k _; simp
  | cons a t ih =>
      intro l₂ k h
      cases l₂ with
      | nil => simp
      | cons b t₂ =>
          cases k with
          | zero => simp at h
          | succ k =>
              simp only [List.take_succ_cons, List.zip_cons_cons]
              rw [ih t₂ k (Nat.le_of_succ_le_succ h)]

/-- The itertools.product enumeration of polyval2d has (order+1)^2 index
pairs. -/
theorem polyPairs_length (order : Nat) :
    (polyPairs order).length = (order + 1) * (order + 1) := by
  have h : (List.length ∘ fun i => (List.range (order + 1)).map
      (fun j : Nat => (i, j))) = fun _ : Nat => order + 1 := by
    funext i; simp
  simp [polyPairs, h, List.map_const', List.sum_replicate, smul_eq_mul]

/-- Nat.sqrt 10 = 3, via the characterization of the floor square root
(Nat.sqrt is not definitionally evaluable). -/
theorem sqrt_ten : Nat.sqrt 10 = 3 := (Nat.eq_sqrt.mpr (by norm_num)).symm

/-- Unfolding the outer per-file loop with an arbitrary accumulated results
table: the loop only ever appends, and what it appends for each profile is
a function of that profile alone. -/
theorem processProfilesLoop_append (lnF : ℚ → ℚ) (coeffs : List ℚ)
    (fuel : Nat) :
    ∀ (ps : List (List Draw)) (acc : List ProfileSavings),
      processProfilesLoop lnF coeffs fuel ps acc =
        acc ++ ps.map (processSeries lnF coeffs fuel) := by
  intro ps
  induction ps with
  | nil => intro acc; simp [processProfilesLoop]
  | cons p rest ih =>
      intro acc
      rw [processProfilesLoop, ih]
      simp

/-! ## Claims -/

/-- Claim C2: for every input with mains temperature distinct from the
water-heater temperature, Calculate_Fraction_Cold_ThroughDWHR in the
Unequal-WaterHeater configuration returns the complement
1 - cold_flow / total_flow, with cold_flow = total_flow *
(shower_temp - heater_temp) / (mains_temp - heater_temp), and in the
Unequal-Fixture configuration returns cold_flow / total_flow directly. -/
theorem C2_cold_fraction_formulas (f tm ts th : ℚ) (h : tm ≠ th) :
    Calculate_Fraction_Cold_ThroughDWHR f tm ts th
        Configuration.Unequal_WaterHeater
      = 1 - f * (ts - th) / (tm - th) / f ∧
    Calculate_Fraction_Cold_ThroughDWHR f tm ts th
        Configuration.Unequal_Fixture
      = f * (ts - th) / (tm - th) / f :=
  ⟨rfl, rfl⟩

/-- Witness for C2 at total flow 2 gal/min, mains 55, shower 105,
heater 115. -/
theorem C2_witness :
    ((55 : ℚ) ≠ 115) ∧
    (Calculate_Fraction_Cold_ThroughDWHR 2 55 105 115
        Configuration.Unequal_WaterHeater
      = 1 - 2 * ((105 : ℚ) - 115) / ((55 : ℚ) - 115) / 2 ∧
    Calculate_Fraction_Cold_ThroughDWHR 2 55 105 115
        Configuration.Unequal_Fixture
      = 2 * ((105 : ℚ) - 115) / ((55 : ℚ) - 115) / 2) :=
  ⟨by norm_num, C2_cold_fraction_formulas 2 55 105 115 (by norm_num)⟩

/-- Claim C3: in every pass of the Unequal-Fixture solver, for every draw,
the flow ratio is flow_rate / cold_flow_estimate (the loop-carried estimate
entering the pass), the unequal-flow heat-recovery rate is the equal-flow
rate times the logarithmic correction 0.3452 * ln(flow_ratio) + 1, and the
recovered heat of the draw is that rate times the duration.  Proved for
every abstract logarithm lnF, every coefficient list, every draw and every
iteration count. -/
theorem C3_manouchehri_correction (lnF : ℚ → ℚ) (coeffs : List ℚ)
    (d : Draw) (n : Nat) :
    ((fixtureStep lnF coeffs d)^[n + 1] (initFixture d)).flowRatioUF
      = d.flowRate /
        ((fixtureStep lnF coeffs d)^[n] (initFixture d)).coldFlow ∧
    ((fixtureStep lnF coeffs d)^[n + 1] (initFixture d)).heatRateUnequal
      = ((fixtureStep lnF coeffs d)^[n + 1] (initFixture d)).heatRateEqualFC
        * (0.3452 *
            lnF ((fixtureStep lnF coeffs d)^[n + 1]
                  (initFixture d)).flowRatioUF + 1) ∧
    ((fixtureStep lnF coeffs d)^[n + 1] (initFixture d)).heatRecovered
      = ((fixtureStep lnF coeffs d)^[n + 1] (initFixture d)).heatRateUnequal
        * d.duration := by
  rw [Function.iterate_succ_apply']
  exact ⟨rfl, rfl, rfl⟩

/-- Claim C4, counterexample: with the cold-flow estimate at 0 (flow rate
2, equal-flow heat rate 5), the ratio / logarithm / correction chain of the
solver silently yields the non-finite marker - the division 2 / 0 is
executed unguarded and its non-finite result propagates into the
heat-recovery rate; no error is raised and no epsilon clamp is applied.
The finite stand-in for the logarithm is irrelevant: the division fails
before it is consulted.  This refutes the claim that the solver fails with
NumericDomainError or clamps, and never silently produces inf or NaN. -/
theorem C4_counterexample :
    heatRateUnequal_chk (fun x => if 0 < x then some 0 else none) 5 2 0
      = none ∧
    pdiv 2 0 = none :=
  ⟨rfl, rfl⟩

/-- Claim C4, amended: when the cold-flow estimate is 0 the solver computes
flow_ratio = flow_rate / cold_flow_estimate on the raw, unclamped estimate;
the zero-denominator division makes the ratio, the logarithm and the
unequal-flow heat-recovery rate non-finite, and this value propagates
silently - for every logarithm model, every equal-flow heat rate and every
flow rate. -/
theorem C4_flow_ratio_unguarded (lnChk : ℚ → Option ℚ)
    (heatRateEqual flowRate : ℚ) :
    heatRateUnequal_chk lnChk heatRateEqual flowRate 0 = none := by
  simp [heatRateUnequal_chk, pdiv]

/-- Claim C5, counterexample: on the length-10 coefficient array
[1,0,0,0,0,0,0,0,0,999] - not a perfect square - polyval2d raises nothing
and returns the value 1 at x = y = 1 (the tenth coefficient 999 is silently
dropped by the zip truncation), whereas the specification's validating
evaluation rejects the array. -/
theorem C5_counterexample :
    polyval2d 1 1 [1, 0, 0, 0, 0, 0, 0, 0, 0, 999] = 1 ∧
    evaluate_surface_spec [1, 0, 0, 0, 0, 0, 0, 0, 0, 999] 1 1 = none := by
  have hp : polyPairs 2 = [(0, 0), (0, 1), (0, 2), (1, 0), (1, 1), (1, 2),
      (2, 0), (2, 1), (2, 2)] := by decide
  constructor
  · simp only [polyval2d, List.length_cons, List.length_nil]
    norm_num [sqrt_ten, hp]
  · simp only [evaluate_surface_spec, List.length_cons, List.length_nil]
    norm_num [sqrt_ten]

/-- Claim C5, amended: polyval2d performs no shape validation; for every
coefficient list it returns the same value it returns on the truncation of
the list to the first (floor sqrt N)^2 entries - on a non-square length the
trailing coefficients are silently ignored and a value is produced, no
MalformedCoefficients error exists. -/
theorem C5_silent_truncation (m : List ℚ) (x y : ℚ) :
    polyval2d x y m
      = polyval2d x y (m.take (Nat.sqrt m.length * Nat.sqrt m.length)) := by
  rcases Nat.eq_zero_or_pos m.length with h0 | hpos
  · rw [List.length_eq_zero.mp h0]
    simp
  · have hs : 1 ≤ Nat.sqrt m.length := Nat.sqrt_pos.mpr hpos
    have hk : Nat.sqrt m.length * Nat.sqrt m.length ≤ m.length :=
      Nat.sqrt_le m.length
    have hlen : (m.take (Nat.sqrt m.length * Nat.sqrt m.length)).length
        = Nat.sqrt m.length * Nat.sqrt m.length := by
      rw [List.length_take]
      exact min_eq_left hk
    simp only [polyval2d]
    rw [hlen, Nat.sqrt_eq]
    rw [zip_take_of_length_le m (polyPairs (Nat.sqrt m.length - 1))
      (Nat.sqrt m.length * Nat.sqrt m.length)
      (by rw [polyPairs_length, Nat.sub_add_cancel hs])]

/-- Claim C6: at the failing input - draw with flow rate 2 gal/min, hot
water flow rate 3 gal/min (cold-flow estimate 2 - 3 = -1), mains 55 deg F,
constant correction factor 50/21 so the effectiveness is exactly 1 - the
first solver pass takes the limiting flow as min(flow, cold) = -1: the
combine(min, fill_value 0) of the source puts no lower bound at zero (the
fill value only applies to missing index labels), so the negative flow is
used and the equal-flow heat rate comes out negative, where the claim (and
the source's own comment on line 198) require max(0, min(flow, cold)) = 0.
The logarithm stand-in is irrelevant to both fields. -/
theorem C6_negative_limiting_flow :
    (fixtureStep (fun _ => 0) [50 / 21] ⟨2, 1, 55, 3⟩
      (initFixture ⟨2, 1, 55, 3⟩)).flowRateMin = -1 ∧
    (fixtureStep (fun _ => 0) [50 / 21] ⟨2, 1, 55, 3⟩
      (initFixture ⟨2, 1, 55, 3⟩)).heatRateEqualFC < 0 ∧
    max (0 : ℚ) (min (2 : ℚ) (-1)) = 0 := by
  have hp : polyPairs 0 = [(0, 0)] := by decide
  refine ⟨?_, ?_, by norm_num⟩ <;>
    norm_num [fixtureStep, initFixture, polyval2d, hp,
      FlowRate_Effectiveness_Minimum, FlowRate_Effectiveness_Maximum,
      Effectiveness_Rated, Density_Water, SpecificHeat_Water,
      Temperature_Drain_Inlet]

/-- Claim C7: at the failing input - draw with flow rate 3 gal/min, mains
104 deg F (shower 105, heater 115) - the cold-side flow passed as the
second axis of the performance map is 3/11, strictly below the 0.5 gal/min
minimum: the lower clamp of source line 164 tests the draw flow rate (3,
which passes) instead of the potable cold-side flow it selects, so a
cold-side value below min_flow is not raised to min_flow, where the claim
(and the source's own comment on line 164) require clamping the cold-side
flow into [0.5, 7.5]. -/
theorem C7_cold_clamp_not_applied :
    FlowRate_Cold_Effectiveness_UnequalWH ⟨3, 1, 104, 0⟩ = 3 / 11 ∧
    (3 / 11 : ℚ) < FlowRate_Effectiveness_Minimum := by
  constructor <;>
    norm_num [FlowRate_Cold_Effectiveness_UnequalWH,
      Potable_FlowRate_UnequalWH, Fraction_Cold_UnequalWH,
      Calculate_Fraction_Cold_ThroughDWHR, FlowRate_Effectiveness_Minimum,
      FlowRate_Effectiveness_Maximum, Temperature_Shower,
      Temperature_WaterHeater]

/-- Claim C8, counterexample: with mains temperature equal to the
water-heater temperature (both 115, flow 2, shower 105) the
Unequal-WaterHeater branch executes its division with the zero denominator
mains - heater: no guard exists, and the expression silently takes the
non-finite float value (marked none) instead of an error being raised -
the callers pass whole pandas series, for which a zero denominator
produces inf/NaN with only a runtime warning. -/
theorem C8_counterexample :
    Calculate_Fraction_Cold_ThroughDWHR_chk 2 115 105 115
      Configuration.Unequal_WaterHeater = none := by
  simp [Calculate_Fraction_Cold_ThroughDWHR_chk, pdiv]

/-- Claim C8, amended: Calculate_Fraction_Cold_ThroughDWHR does not guard
the division: whenever the mains temperature equals the water-heater
temperature, both unequal branches execute the division with a zero
denominator and silently yield the non-finite value, for every flow rate
and shower temperature. -/
theorem C8_division_unguarded (f ts th : ℚ) :
    Calculate_Fraction_Cold_ThroughDWHR_chk f th ts th
      Configuration.Unequal_WaterHeater = none ∧
    Calculate_Fraction_Cold_ThroughDWHR_chk f th ts th
      Configuration.Unequal_Fixture = none := by
  constructor <;>
    simp [Calculate_Fraction_Cold_ThroughDWHR_chk, pdiv]

/-- Claim C9: the outer loop, with its accumulated results table threaded
through explicitly, computes exactly the pure map of processSeries over
the profile list: the ProfileSavings produced for a series depends only on
that series, the coefficients and the constants - no hidden state - so
processing the same draw series twice (at any two positions of the batch)
yields identical ProfileSavings. -/
theorem C9_no_hidden_state (lnF : ℚ → ℚ) (coeffs : List ℚ) (fuel : Nat)
    (profiles : List (List Draw)) :
    processProfilesLoop lnF coeffs fuel profiles []
      = profiles.map (processSeries lnF coeffs fuel) := by
  rw [processProfilesLoop_append]
  simp

/-- Claim C10, counterexample: at total flow 0 - inside the claim's scope,
with mains 55 distinct from heater 115 - the final division Flow_Cold /
Flow_Drain of both unequal branches is 0 / 0, a silently produced
non-finite value (NaN) in the pandas float pipeline: neither branch yields
a rational fraction, so the two fractions do not sum to 1 at this
input. -/
theorem C10_counterexample :
    ((55 : ℚ) ≠ 115) ∧
    Calculate_Fraction_Cold_ThroughDWHR_chk 0 55 105 115
      Configuration.Unequal_Fixture = none ∧
    Calculate_Fraction_Cold_ThroughDWHR_chk 0 55 105 115
      Configuration.Unequal_WaterHeater = none := by
  norm_num [Calculate_Fraction_Cold_ThroughDWHR_chk, pdiv]

/-- Claim C10, amended: for every nonzero total flow and temperatures with
mains distinct from heater, both unequal branches of
Calculate_Fraction_Cold_ThroughDWHR are finite - every division they
execute has a nonzero denominator, so the division-tracking embedding
agrees with the exact rational value - and the Unequal-Fixture fraction
plus the Unequal-WaterHeater fraction equals exactly 1: the two
configurations split the same computed cold flow into complementary
fractions.  At total flow 0 both fractions are instead the silent
non-finite 0 / 0. -/
theorem C10_fractions_complementary (f tm ts th : ℚ) (hf : f ≠ 0)
    (h : tm ≠ th) :
    Calculate_Fraction_Cold_ThroughDWHR_chk f tm ts th
        Configuration.Unequal_Fixture
      = some (Calculate_Fraction_Cold_ThroughDWHR f tm ts th
          Configuration.Unequal_Fixture) ∧
    Calculate_Fraction_Cold_ThroughDWHR_chk f tm ts th
        Configuration.Unequal_WaterHeater
      = some (Calculate_Fraction_Cold_ThroughDWHR f tm ts th
          Configuration.Unequal_WaterHeater) ∧
    Calculate_Fraction_Cold_ThroughDWHR f tm ts th
        Configuration.Unequal_Fixture +
      Calculate_Fraction_Cold_ThroughDWHR f tm ts th
        Configuration.Unequal_WaterHeater = 1 := by
  have h1 : tm - th ≠ 0 := sub_ne_zero_of_ne h
  refine ⟨?_, ?_, ?_⟩
  · simp [Calculate_Fraction_Cold_ThroughDWHR_chk,
      Calculate_Fraction_Cold_ThroughDWHR, pdiv, h1, hf]
  · simp [Calculate_Fraction_Cold_ThroughDWHR_chk,
      Calculate_Fraction_Cold_ThroughDWHR, pdiv, h1, hf]
  · simp [Calculate_Fraction_Cold_ThroughDWHR]

/-- Witness for C10 at total flow 3 gal/min, mains 55, shower 105,
heater 115, discharging both hypotheses. -/
theorem C10_witness :
    ((3 : ℚ) ≠ 0) ∧ ((55 : ℚ) ≠ 115) ∧
    (Calculate_Fraction_Cold_ThroughDWHR_chk 3 55 105 115
        Configuration.Unequal_Fixture
      = some (Calculate_Fraction_Cold_ThroughDWHR 3 55 105 115
          Configuration.Unequal_Fixture) ∧
    Calculate_Fraction_Cold_ThroughDWHR_chk 3 55 105 115
        Configuration.Unequal_WaterHeater
      = some (Calculate_Fraction_Cold_ThroughDWHR 3 55 105 115
          Configuration.Unequal_WaterHeater) ∧
    Calculate_Fraction_Cold_ThroughDWHR 3 55 105 115
        Configuration.Unequal_Fixture +
      Calculate_Fraction_Cold_ThroughDWHR 3 55 105 115
        Configuration.Unequal_WaterHeater = 1) :=
  ⟨by norm_num, by norm_num,
    C10_fractions_complementary 3 55 105 115 (by norm_num) (by norm_num)⟩

end DWHR
